import Mathlib

/-!
Shallow embedding of the meeting-recap application.

Server side: the `POST /recap` route handler (src/app/api/recap/route.ts),
modelled as a pure function of the process environment, the decoded request
body, and an `External` record that captures the behaviour of the external
collaborators (OpenAI threads/runs/messages, speech synthesis, JSON.parse of
the JavaScript runtime, base64 encoding of Node's Buffer) during this request.

Client side: the history store, ZIP bundler and snippet restoration of the
page component (src/unnamed/part_001, identical logic in part_000).
-/

namespace Recap

/-- JavaScript JSON values, as produced by `JSON.parse`. -/
inductive Json where
  | null
  | bool (b : Bool)
  | num (n : Int)
  | str (s : String)
  | arr (xs : List Json)
  | obj (fields : List (String × Json))

/-- JavaScript `x || d` for an optional string `x` (absent and `""` are falsy). -/
def jsOr (o : Option String) (d : String) : String :=
  match o with
  | none => d
  | some s => if s = "" then d else s

/-- JavaScript truthiness test `!v` for an environment variable:
absent and the empty string are falsy. -/
def envFalsy (o : Option String) : Bool :=
  match o with
  | none => true
  | some s => s = ""

/-- JavaScript `s.trim()`: the string with whitespace removed from both
ends. -/
def jsTrim (s : String) : String :=
  ⟨(((s.data.dropWhile Char.isWhitespace).reverse.dropWhile
      Char.isWhitespace).reverse : List Char)⟩

/-- Property access `j.k` on a JSON value, as JavaScript evaluates it:
`undefined` (`none`) on a non-object, field lookup on an object.
Access on `null` throws a TypeError; callers handle that case separately. -/
def jsGet (j : Json) (key : String) : Option Json :=
  match j with
  | .obj fields => fields.lookup key
  | _ => none

/-- JavaScript `v ?? ""`: `undefined` and `null` coalesce to the empty string. -/
def jsCoalesce (o : Option Json) : Json :=
  match o with
  | none => .str ""
  | some .null => .str ""
  | some v => v

/-- One content part of an assistant message (`type === "text"` or anything else). -/
inductive ContentPart where
  | text (value : String)
  | other
deriving DecidableEq, Repr

/-- A message retrieved from the thread: a role and a list of content parts. -/
structure Message where
  role : String
  content : List ContentPart
deriving DecidableEq, Repr

/-- The JSON body shapes the route handler produces:
plain `{ error }`, `{ error, raw }` for failed assistant-JSON decoding, and
the success shape `{ notes_markdown, audioBase64, mimeType }`
(where `none` models JSON `null`). -/
inductive RespBody where
  | err (error : String)
  | errRaw (error : String) (raw : String)
  | ok (notes_markdown : Json) (audioBase64 : Option String) (mimeType : Option String)

/-- An HTTP response: status code and JSON body. -/
structure Response where
  status : Nat
  body : RespBody

/-- The message the V8 runtime produces when line 107 of route.ts reads
`parsed.notes_markdown` and `parsed` is `null` (JSON.parse of `"null"`);
the resulting TypeError is caught by the route's outer catch. -/
def nullReadErrorMsg : String :=
  "Cannot read properties of null (reading 'notes_markdown')"

/-- Lines 77-108 of route.ts: retrieve messages already done by the caller;
select the first assistant message, require non-empty content with a textual
first part, JSON-decode its text, and extract
`parsed.notes_markdown ?? ""` and `parsed.voiceover_script ?? ""`.
On failure, the error response the route returns. -/
def parseAssistant (jsonParse : String → Option Json) (msgs : List Message) :
    Except Response (Json × Json) :=
  match msgs.find? (fun m => m.role == "assistant") with
  | none => .error ⟨500, .err "No assistant response found"⟩
  | some assistantMsg =>
    match assistantMsg.content with
    | [] => .error ⟨500, .err "No assistant response found"⟩
    | ContentPart.other :: _ => .error ⟨500, .err "Unexpected assistant content type"⟩
    | ContentPart.text raw :: _ =>
      match jsonParse raw with
      | none => .error ⟨500, .errRaw "Failed to parse JSON from assistant" raw⟩
      | some Json.null => .error ⟨500, .err nullReadErrorMsg⟩
      | some parsed =>
        .ok (jsCoalesce (jsGet parsed "notes_markdown"),
             jsCoalesce (jsGet parsed "voiceover_script"))

/-- The process environment: the two secrets the route reads. -/
structure Env where
  OPENAI_API_KEY : Option String
  OPENAI_ASSISTANT_ID : Option String
deriving DecidableEq, Repr

/-- The decoded request body (fields may be absent). -/
structure RecapBody where
  transcript : Option String
  mode : Option String
  language : Option String
deriving DecidableEq, Repr

/-- A message used to seed the thread at creation. -/
structure SeedMsg where
  role : String
  content : String
deriving DecidableEq, Repr

/-- Behaviour of the external collaborators during one request:
thread creation, `createAndPoll` (error, or the run's terminal status),
message listing, the runtime's `JSON.parse` (`none` = throws), speech
synthesis on a given input (bytes of the reply), and Node's base64 encoding.
`Except.error m` carries the message the route's catch would surface. -/
structure External where
  threadCreate : Except String Unit
  runStatus : Except String String
  listMessages : Except String (List Message)
  jsonParse : String → Option Json
  speechCreate : Json → Except String (List Nat)
  base64 : List Nat → String

/-- Observable side effects of one request: the messages passed to thread
creation (`none` = never called), whether the message list was retrieved
(the parsing stage), and the input passed to speech synthesis
(`none` = never called). -/
structure Trace where
  seededMessages : Option (List SeedMsg)
  parseStageReached : Bool
  speechInput : Option Json

/-- The trace of a request that made no external call. -/
def Trace.none : Trace := ⟨Option.none, false, Option.none⟩

/-- Line 50-53 of route.ts: the language directive. -/
def svInstruction : String :=
  "Please write the notes and voiceover script in Swedish."

/-- The English directive (the default branch of line 50-53). -/
def enInstruction : String :=
  "Please write the notes and voiceover script in English."

/-- Line 60 of route.ts: the single seeded user message's content. -/
def seedContent (language transcript : String) : String :=
  (if language = "sv" then svInstruction else enInstruction) ++
    "\n\nTranscript:\n\n" ++ transcript

/-- The single seeded user message (lines 57-62 of route.ts). -/
def seedMsg (language transcript : String) : SeedMsg :=
  ⟨"user", seedContent language transcript⟩

/-- Lines 55-138 of route.ts: the try block after validation.
`mode`, `language`, `transcript` are the already-defaulted/trimmed values. -/
def runPipeline (mode language transcript : String) (ext : External) :
    Response × Trace :=
  match ext.threadCreate with
  | .error m => (⟨500, .err m⟩, ⟨some [seedMsg language transcript], false, none⟩)
  | .ok _ =>
    match ext.runStatus with
    | .error m => (⟨500, .err m⟩, ⟨some [seedMsg language transcript], false, none⟩)
    | .ok status =>
      if status = "completed" then
        match ext.listMessages with
        | .error m => (⟨500, .err m⟩, ⟨some [seedMsg language transcript], false, none⟩)
        | .ok msgs =>
          match parseAssistant ext.jsonParse msgs with
          | .error r => (r, ⟨some [seedMsg language transcript], true, none⟩)
          | .ok nv =>
            if mode = "notes" then
              (⟨200, .ok nv.1 none none⟩,
               ⟨some [seedMsg language transcript], true, none⟩)
            else
              match ext.speechCreate nv.2 with
              | .error m =>
                (⟨500, .err m⟩,
                 ⟨some [seedMsg language transcript], true, some nv.2⟩)
              | .ok bytes =>
                (⟨200, .ok nv.1 (some (ext.base64 bytes)) (some "audio/mpeg")⟩,
                 ⟨some [seedMsg language transcript], true, some nv.2⟩)
      else
        (⟨500, .err ("Run did not complete: " ++ status)⟩,
         ⟨some [seedMsg language transcript], false, none⟩)

/-- A validated RecapRequest: the values the route works with after
lines 39-41 of route.ts (trimmed transcript, defaulted mode and language). -/
structure ValidatedRequest where
  transcript : String
  mode : String
  language : String
deriving DecidableEq, Repr

/-- Lines 39-48 of route.ts: defaulting and the empty-transcript gate.
`none` means the route answers 400 "Transcript is empty". -/
def validate (body : RecapBody) : Option ValidatedRequest :=
  if jsTrim (jsOr body.transcript "") = "" then
    none
  else
    some ⟨jsTrim (jsOr body.transcript ""), jsOr body.mode "notes",
          jsOr body.language "en"⟩

/-- The route handler `POST` (route.ts lines 18-139), as a pure function of
the environment, the decoded body (`none` = the body's JSON failed to parse)
and the external behaviour. Returns the response and the effect trace. -/
def POST (env : Env) (body? : Option RecapBody) (ext : External) :
    Response × Trace :=
  if envFalsy env.OPENAI_API_KEY then
    (⟨500, .err "OPENAI_API_KEY is not set"⟩, Trace.none)
  else if envFalsy env.OPENAI_ASSISTANT_ID then
    (⟨500, .err "OPENAI_ASSISTANT_ID is not set"⟩, Trace.none)
  else
    match body? with
    | Option.none => (⟨400, .err "Invalid JSON"⟩, Trace.none)
    | some body =>
      match validate body with
      | Option.none => (⟨400, .err "Transcript is empty"⟩, Trace.none)
      | some vr => runPipeline vr.mode vr.language vr.transcript ext

/-! Client-side logic (page component, src/unnamed/part_001; the variant in
src/unnamed/part_000 has byte-identical logic for these functions). -/

/-- A local history entry (`HistoryItem` in the page component). -/
structure HistoryItem where
  id : String
  createdAt : String
  mode : String
  language : String
  notesSnippet : String
deriving DecidableEq, Repr

/-- Lines 99-105 of the page component: the entry built after a successful
generation; `notesSnippet` is `(data.notes_markdown || "").slice(0, 120)`. -/
def mkHistoryItem (id createdAt mode language : String)
    (notesMarkdown : Option String) : HistoryItem :=
  ⟨id, createdAt, mode, language, (jsOr notesMarkdown "").take 120⟩

/-- Line 106 of the page component:
`[item, ...history].slice(0, 20)`, the list then persisted whole. -/
def recordGeneration (item : HistoryItem) (history : List HistoryItem) :
    List HistoryItem :=
  (item :: history).take 20

/-- The stored list after recording the given generations in order,
starting from an empty history. -/
def generationsResult (items : List HistoryItem) : List HistoryItem :=
  items.foldl (fun h i => recordGeneration i h) []

/-- A file inside the generated archive: name plus text or binary content. -/
inductive ZipEntry where
  | textFile (name : String) (content : String)
  | binFile (name : String) (bytes : List Nat)
deriving DecidableEq, Repr

/-- Lines 132-145 of the page component: refuse when `notes` is falsy
(the empty string), else build the archive with `meeting_notes.md` and,
when an audio blob is held, `meeting_recap.mp3` with its raw bytes.
The error value is the message shown to the user (the NoContentError). -/
def handleDownloadZip (notes : String) (audioBlob : Option (List Nat)) :
    Except String (List ZipEntry) :=
  if notes = "" then
    .error "There are no notes to download yet."
  else
    .ok ([ZipEntry.textFile "meeting_notes.md" notes] ++
      (match audioBlob with
       | some bytes => [ZipEntry.binFile "meeting_recap.mp3" bytes]
       | none => []))

/-- Lines 178-180 of the page component (`restoreFromHistory`): the text the
notes pane is set to, from the stored snippet. -/
def restoreSnippet (snippet : String) : String :=
  snippet ++ (if snippet.length = 120 then " ..." else "")

/-- Whether the parse stage lets the route proceed (lines 77-108 of route.ts
reach line 110 without returning an error response). -/
def parseSucceeds (jsonParse : String → Option Json) (msgs : List Message) : Bool :=
  match parseAssistant jsonParse msgs with
  | .ok _ => true
  | .error _ => false

/-- Whether a JSON value is an object containing the given key. -/
def jsonHasKey (j : Json) (key : String) : Bool :=
  match j with
  | .obj fields => (fields.lookup key).isSome
  | _ => false

/-- Whether a JSON value is an object. -/
def isObj (j : Json) : Bool :=
  match j with
  | .obj _ => true
  | _ => false

/-- The acceptance condition claimed for the parser, following the spec's
words: the retrieved messages contain an assistant-role message whose content
is exactly one content part of textual kind and whose text decodes as a JSON
object containing the required key `notes_markdown`. -/
def claimedParseOK (jsonParse : String → Option Json) (msgs : List Message) : Bool :=
  match msgs.find? (fun m => m.role == "assistant") with
  | none => false
  | some amsg =>
    match amsg.content with
    | [ContentPart.text raw] =>
      match jsonParse raw with
      | some j => isObj j && jsonHasKey j "notes_markdown"
      | none => false
    | _ => false

/-- The acceptance condition the code actually implements: a first assistant
message exists, its first content part is textual, and the text decodes as
JSON to a value other than JSON null (fields are read with defaults). -/
def codeParseOK (jsonParse : String → Option Json) (msgs : List Message) : Bool :=
  match msgs.find? (fun m => m.role == "assistant") with
  | none => false
  | some amsg =>
    match amsg.content with
    | ContentPart.text raw :: _ =>
      match jsonParse raw with
      | some Json.null => false
      | some _ => true
      | none => false
    | _ => false

/-- The literal two-character text of an empty JSON object. -/
def rawEmptyObj : String := "\x7b\x7d"

/-- The literal text of a JSON object whose only key is `notes_markdown`. -/
def rawNotesObj : String := "\x7b\"notes_markdown\":\"x\"\x7d"

/-- A concrete `JSON.parse` behaviour, agreeing with the JavaScript runtime
on the three payloads the sample messages use. -/
def jpSample : String → Option Json := fun s =>
  if s = rawEmptyObj then some (.obj [])
  else if s = "[]" then some (.arr [])
  else if s = rawNotesObj then some (.obj [("notes_markdown", .str "x")])
  else none

/-- One assistant message whose single textual part is an empty JSON object. -/
def msgsEmptyObj : List Message := [⟨"assistant", [.text rawEmptyObj]⟩]

/-- One assistant message with two textual parts, the first a JSON object
with the `notes_markdown` key. -/
def msgsTwoParts : List Message :=
  [⟨"assistant", [.text rawNotesObj, .text rawEmptyObj]⟩]

/-- One assistant message whose single textual part is a JSON array. -/
def msgsArray : List Message := [⟨"assistant", [.text "[]"]⟩]

/-- A benign concrete behaviour of the external collaborators. -/
def extDefault : External :=
  ⟨.ok (), .ok "completed", .ok msgsEmptyObj, jpSample,
   fun _ => .ok [1, 2, 3], fun _ => "AQID"⟩

/-- Folding `recordGeneration` over a sequence of entries keeps the newest
20 of everything seen, newest first, whenever the accumulator already holds
at most 20 entries. -/
theorem foldl_recordGeneration (items : List HistoryItem) :
    ∀ acc : List HistoryItem, acc.length ≤ 20 →
      items.foldl (fun hist i => recordGeneration i hist) acc =
        (items.reverse ++ acc).take 20 := by
  induction items with
  | nil =>
    intro acc h
    simp [List.take_of_length_le h]
  | cons i is ih =>
    intro acc h
    have hlen : ((i :: acc).take 20).length ≤ 20 := by
      simp [List.length_take]
    simp only [List.foldl_cons, List.reverse_cons, List.append_assoc,
      List.singleton_append]
    rw [recordGeneration, ih ((i :: acc).take 20) hlen,
      List.take_append_eq_append_take, List.take_append_eq_append_take,
      List.take_take]
    congr 1
    have : min (20 - is.reverse.length) 20 = 20 - is.reverse.length := by omega
    rw [this]

/-- C5: the history list after `recordGeneration` never exceeds 20 entries;
recording N generations from an empty store keeps exactly the most recent 20,
newest first (each new entry prepended); and every entry built by the
generation handler has a `notesSnippet` of at most 120 characters. -/
theorem history_store_invariants :
    (∀ (i : HistoryItem) (hist : List HistoryItem),
        (recordGeneration i hist).length ≤ 20) ∧
    (∀ items : List HistoryItem,
        generationsResult items = items.reverse.take 20) ∧
    (∀ id createdAt mode language notesMarkdown,
        (mkHistoryItem id createdAt mode language notesMarkdown).notesSnippet.length
          ≤ 120) := by
  refine ⟨?_, ?_, ?_⟩
  · intro i hist
    simp [recordGeneration, List.length_take]
  · intro items
    simpa using foldl_recordGeneration items [] (by simp)
  · intro id createdAt mode language notesMarkdown
    simp only [mkHistoryItem]
    rw [String.take_eq, String.length_mk]
    simp [List.length_take]

/-- C8: the ZIP bundler rejects empty notes with the no-content error and
otherwise produces an archive holding `meeting_notes.md` with the notes text,
plus `meeting_recap.mp3` with the raw audio bytes exactly when audio is held —
notes without audio yield an archive with only the notes file. -/
theorem downloadZip_spec (notes : String) (audio : Option (List Nat)) :
    (notes = "" →
      handleDownloadZip notes audio = .error "There are no notes to download yet.") ∧
    (notes ≠ "" →
      handleDownloadZip notes none = .ok [ZipEntry.textFile "meeting_notes.md" notes]) ∧
    (∀ bytes, notes ≠ "" →
      handleDownloadZip notes (some bytes) =
        .ok [ZipEntry.textFile "meeting_notes.md" notes,
             ZipEntry.binFile "meeting_recap.mp3" bytes]) := by
  refine ⟨?_, ?_, ?_⟩
  · intro h
    simp [handleDownloadZip, h]
  · intro h
    simp [handleDownloadZip, h]
  · intro bytes h
    simp [handleDownloadZip, h]

/-- Witness for C8 at concrete inputs. -/
theorem downloadZip_spec_witness :
    handleDownloadZip "" none = .error "There are no notes to download yet." ∧
    handleDownloadZip "x" none = .ok [ZipEntry.textFile "meeting_notes.md" "x"] ∧
    handleDownloadZip "x" (some [7, 8]) =
      .ok [ZipEntry.textFile "meeting_notes.md" "x",
           ZipEntry.binFile "meeting_recap.mp3" [7, 8]] :=
  ⟨(downloadZip_spec "" none).1 rfl,
   (downloadZip_spec "x" none).2.1 (by decide),
   (downloadZip_spec "x" (some [7, 8])).2.2 [7, 8] (by decide)⟩

/-- C9: snippet restoration appends the truncation marker exactly when the
stored snippet's length equals 120, and returns any snippet of length
below 120 unmodified. -/
theorem restoreSnippet_marker_iff (s : String) :
    (restoreSnippet s = s ++ " ..." ↔ s.length = 120) ∧
    (s.length < 120 → restoreSnippet s = s) := by
  constructor
  · constructor
    · intro h
      by_contra hne
      rw [restoreSnippet, if_neg hne] at h
      have hlen := congrArg String.length h
      simp only [String.length_append] at hlen
      have h4 : (" ...").length = 4 := rfl
      have h0 : ("" : String).length = 0 := rfl
      omega
    · intro h
      rw [restoreSnippet, if_pos h]
  · intro h
    have hne : s.length ≠ 120 := by omega
    rw [restoreSnippet, if_neg hne, String.append_empty]

/-- Witness for C9 at concrete inputs. -/
theorem restoreSnippet_marker_iff_witness :
    restoreSnippet "ab" = "ab" :=
  (restoreSnippet_marker_iff "ab").2 (by decide)

/-- With both secrets set and a non-empty trimmed transcript, the handler
runs the pipeline on the validated request. -/
theorem POST_pipeline (env : Env) (body : RecapBody) (ext : External)
    (hk : envFalsy env.OPENAI_API_KEY = false)
    (ha : envFalsy env.OPENAI_ASSISTANT_ID = false)
    (ht : jsTrim (jsOr body.transcript "") ≠ "") :
    POST env (some body) ext =
      runPipeline (jsOr body.mode "notes") (jsOr body.language "en")
        (jsTrim (jsOr body.transcript "")) ext := by
  simp [POST, validate, hk, ha, ht]

/-- Every branch of the pipeline records the same single seeded user
message: the thread is always created with exactly this payload. -/
theorem runPipeline_seeded (mode language transcript : String) (ext : External) :
    (runPipeline mode language transcript ext).2.seededMessages =
      some [seedMsg language transcript] := by
  unfold runPipeline
  repeat' split
  all_goals rfl

/-- C10: when a required secret is unset (or empty, which the route's
truthiness test also treats as unset), every request is answered 500 with the
corresponding configuration error — the body, even a malformed or
empty-transcript one, is never consulted and no external call is made, so the
configuration error takes precedence over any 400 validation error. -/
theorem config_error_takes_precedence (env : Env) (body? : Option RecapBody)
    (ext : External)
    (h : envFalsy env.OPENAI_API_KEY = true ∨
         envFalsy env.OPENAI_ASSISTANT_ID = true) :
    (POST env body? ext).1.status = 500 ∧
    (POST env body? ext).1.body =
      (if envFalsy env.OPENAI_API_KEY then
        RespBody.err "OPENAI_API_KEY is not set"
      else RespBody.err "OPENAI_ASSISTANT_ID is not set") ∧
    (POST env body? ext).2 = Trace.none := by
  cases hk : envFalsy env.OPENAI_API_KEY with
  | true => simp [POST, hk]
  | false =>
    cases ha : envFalsy env.OPENAI_ASSISTANT_ID with
    | true => simp [POST, hk, ha]
    | false => simp [hk, ha] at h

/-- Witness for C10: missing API key beats the empty-transcript 400. -/
theorem config_error_takes_precedence_witness :
    (POST ⟨Option.none, some "asst"⟩ (some ⟨some "", Option.none, Option.none⟩)
        extDefault).1.status = 500 :=
  (config_error_takes_precedence ⟨Option.none, some "asst"⟩
    (some ⟨some "", Option.none, Option.none⟩) extDefault (Or.inl rfl)).1

/-- C4: with the secrets set, a request whose transcript is empty or
whitespace-only is answered 400 "Transcript is empty" whatever the mode and
language fields hold, and no external call is made (no session is created). -/
theorem empty_transcript_rejected (env : Env) (body : RecapBody) (ext : External)
    (hk : envFalsy env.OPENAI_API_KEY = false)
    (ha : envFalsy env.OPENAI_ASSISTANT_ID = false)
    (ht : jsTrim (jsOr body.transcript "") = "") :
    POST env (some body) ext =
      (⟨400, .err "Transcript is empty"⟩, Trace.none) := by
  simp [POST, validate, hk, ha, ht]

/-- Witness for C4: a whitespace-only transcript with audio mode and Swedish
language is rejected with 400 and an empty trace. -/
theorem empty_transcript_rejected_witness :
    POST ⟨some "key", some "asst"⟩
        (some ⟨some "  ", some "notes+audio", some "sv"⟩) extDefault =
      (⟨400, .err "Transcript is empty"⟩, Trace.none) :=
  empty_transcript_rejected ⟨some "key", some "asst"⟩
    ⟨some "  ", some "notes+audio", some "sv"⟩ extDefault rfl rfl (by decide)

/-- The defaulted language equals "sv" exactly when the request's language
field is literally "sv" (missing, empty and unknown values all default). -/
theorem jsOr_language_sv (o : Option String) :
    jsOr o "en" = "sv" ↔ o = some "sv" := by
  cases o with
  | none => simp [jsOr]
  | some s =>
    by_cases h : s = ""
    · subst h
      simp [jsOr]
    · simp [jsOr, h]

/-- C3: with the secrets set, every validated request seeds its session with
a single user message combining the language directive and the validated
request's transcript verbatim; the directive is the fixed Swedish instruction
exactly when the request's language field is "sv", and the fixed English
instruction for "en" and for every other (unknown, empty or missing) value. -/
theorem session_seeding (env : Env) (body : RecapBody) (ext : External)
    (vr : ValidatedRequest)
    (hk : envFalsy env.OPENAI_API_KEY = false)
    (ha : envFalsy env.OPENAI_ASSISTANT_ID = false)
    (hv : validate body = some vr) :
    (POST env (some body) ext).2.seededMessages =
      some [⟨"user",
        (if body.language = some "sv" then svInstruction else enInstruction) ++
          "\n\nTranscript:\n\n" ++ vr.transcript⟩] := by
  have ht : jsTrim (jsOr body.transcript "") ≠ "" := by
    intro hempty
    simp [validate, hempty] at hv
  have hvr : vr = ⟨jsTrim (jsOr body.transcript ""), jsOr body.mode "notes",
      jsOr body.language "en"⟩ := by
    simp [validate, ht] at hv
    exact hv.symm
  rw [POST_pipeline env body ext hk ha ht, runPipeline_seeded, hvr]
  have hdir : (if jsOr body.language "en" = "sv" then svInstruction
        else enInstruction) =
      (if body.language = some "sv" then svInstruction else enInstruction) := by
    by_cases h : body.language = some "sv"
    · rw [if_pos h, if_pos ((jsOr_language_sv body.language).mpr h)]
    · rw [if_neg h, if_neg (fun hh => h ((jsOr_language_sv body.language).mp hh))]
  simp [seedMsg, seedContent, hdir]

/-- Witness for C3: an unknown language value falls back to the English
directive, and the trimmed transcript is seeded verbatim. -/
theorem session_seeding_witness :
    (POST ⟨some "key", some "asst"⟩
        (some ⟨some "hello", some "notes", some "de"⟩) extDefault).2.seededMessages =
      some [⟨"user", enInstruction ++ "\n\nTranscript:\n\n" ++ "hello"⟩] := by
  have h := session_seeding ⟨some "key", some "asst"⟩
    ⟨some "hello", some "notes", some "de"⟩ extDefault
    ⟨"hello", "notes", "de"⟩ rfl rfl (by decide)
  simpa using h

/-- C6: when the run's terminal state is `failed`, `cancelled` or `expired`,
the response is a 500 whose error message carries the terminal status string,
and neither the parsing stage, nor synthesis, nor the success composition
runs. -/
theorem run_not_completed_fails (env : Env) (body : RecapBody) (ext : External)
    (status : String)
    (hk : envFalsy env.OPENAI_API_KEY = false)
    (ha : envFalsy env.OPENAI_ASSISTANT_ID = false)
    (ht : jsTrim (jsOr body.transcript "") ≠ "")
    (hc : ext.threadCreate = .ok ())
    (hs : ext.runStatus = .ok status)
    (hterm : status = "failed" ∨ status = "cancelled" ∨ status = "expired") :
    (POST env (some body) ext).1 =
      ⟨500, .err ("Run did not complete: " ++ status)⟩ ∧
    (∃ rest, "Run did not complete: " ++ status = rest ++ status) ∧
    (POST env (some body) ext).2.parseStageReached = false ∧
    (POST env (some body) ext).2.speechInput = Option.none := by
  have hne : status ≠ "completed" := by
    rcases hterm with h | h | h <;> subst h <;> decide
  rw [POST_pipeline env body ext hk ha ht]
  refine ⟨?_, ⟨"Run did not complete: ", rfl⟩, ?_, ?_⟩ <;>
    simp [runPipeline, hc, hs, hne]

/-- Witness for C6: a `failed` run yields the 500 upstream error and an
untouched parse/synthesis trace. -/
theorem run_not_completed_fails_witness :
    (POST ⟨some "key", some "asst"⟩ (some ⟨some "hi", Option.none, Option.none⟩)
        { extDefault with runStatus := .ok "failed" }).1 =
      ⟨500, .err ("Run did not complete: " ++ "failed")⟩ :=
  (run_not_completed_fails ⟨some "key", some "asst"⟩
    ⟨some "hi", Option.none, Option.none⟩
    { extDefault with runStatus := .ok "failed" } "failed"
    rfl rfl (by decide) rfl rfl (Or.inl rfl)).1

/-- C7: when the assistant's textual payload does not decode as JSON, the 500
response carries the raw undecodable text alongside the error message. -/
theorem malformed_json_includes_raw (env : Env) (body : RecapBody)
    (ext : External) (msgs : List Message) (amsg : Message) (raw : String)
    (rest : List ContentPart)
    (hk : envFalsy env.OPENAI_API_KEY = false)
    (ha : envFalsy env.OPENAI_ASSISTANT_ID = false)
    (ht : jsTrim (jsOr body.transcript "") ≠ "")
    (hc : ext.threadCreate = .ok ())
    (hs : ext.runStatus = .ok "completed")
    (hm : ext.listMessages = .ok msgs)
    (hfind : msgs.find? (fun m => m.role == "assistant") = some amsg)
    (hcontent : amsg.content = ContentPart.text raw :: rest)
    (hparse : ext.jsonParse raw = Option.none) :
    (POST env (some body) ext).1 =
      ⟨500, .errRaw "Failed to parse JSON from assistant" raw⟩ := by
  rw [POST_pipeline env body ext hk ha ht]
  simp [runPipeline, hc, hs, hm, parseAssistant, hfind, hcontent, hparse]

/-- Witness for C7: an assistant payload that is not JSON is surfaced raw. -/
theorem malformed_json_includes_raw_witness :
    (POST ⟨some "key", some "asst"⟩ (some ⟨some "hi", Option.none, Option.none⟩)
        { extDefault with
            listMessages := .ok [⟨"assistant", [.text "oops"]⟩] }).1 =
      ⟨500, .errRaw "Failed to parse JSON from assistant" "oops"⟩ :=
  malformed_json_includes_raw ⟨some "key", some "asst"⟩
    ⟨some "hi", Option.none, Option.none⟩
    { extDefault with listMessages := .ok [⟨"assistant", [.text "oops"]⟩] }
    [⟨"assistant", [.text "oops"]⟩] ⟨"assistant", [.text "oops"]⟩ "oops" []
    rfl rfl (by decide) rfl rfl rfl (by decide) rfl rfl

/-- Every error the parse stage produces is a 500 response. -/
theorem parseAssistant_error_status (jsonParse : String → Option Json)
    (msgs : List Message) (r : Response)
    (h : parseAssistant jsonParse msgs = .error r) : r.status = 500 := by
  unfold parseAssistant at h
  repeat' split at h
  all_goals first
    | (cases h; rfl)
    | cases h

/-- Any 200 answer of the pipeline is the success shape; in notes mode both
audio fields are null, in any other mode both are populated with MIME type
`audio/mpeg`, and the two fields are always populated together. -/
theorem runPipeline_status200 (mode language transcript : String)
    (ext : External)
    (h200 : (runPipeline mode language transcript ext).1.status = 200) :
    ∃ notes audio mime,
      (runPipeline mode language transcript ext).1.body =
        RespBody.ok notes audio mime ∧
      (mode = "notes" → audio = Option.none ∧ mime = Option.none) ∧
      (mode ≠ "notes" → ∃ b64, audio = some b64 ∧ mime = some "audio/mpeg") ∧
      (audio.isSome ↔ mime.isSome) := by
  revert h200
  unfold runPipeline
  repeat' split
  all_goals intro h200
  all_goals
    first
      | (exfalso; simp at h200; done)
      | (exfalso
         rename_i heq
         have h500 := parseAssistant_error_status _ _ _ heq
         simp [h500] at h200
         done)
      | refine ⟨_, _, _, rfl, ?_, ?_, ?_⟩
  all_goals
    first
      | (intro h
         first
           | exact ⟨rfl, rfl⟩
           | exact ⟨_, rfl, rfl⟩
           | exact absurd h ‹¬ mode = "notes"›
           | exact absurd ‹mode = "notes"› h)
      | simp

/-- C1: every 200 response of the route carries the success shape; a request
with mode "notes" gets null `audioBase64` and `mimeType`, a request with mode
"notes+audio" (succeeding end to end, which status 200 entails) gets both
fields non-null with `mimeType = "audio/mpeg"`, and the two fields are always
present or absent together. -/
theorem success_both_or_neither (env : Env) (body : RecapBody) (ext : External)
    (h200 : (POST env (some body) ext).1.status = 200) :
    ∃ notes audio mime,
      (POST env (some body) ext).1.body = RespBody.ok notes audio mime ∧
      (body.mode = some "notes" → audio = Option.none ∧ mime = Option.none) ∧
      (body.mode = some "notes+audio" →
        ∃ b64, audio = some b64 ∧ mime = some "audio/mpeg") ∧
      (audio.isSome ↔ mime.isSome) := by
  by_cases hk : envFalsy env.OPENAI_API_KEY = true
  · simp [POST, hk] at h200
  by_cases ha : envFalsy env.OPENAI_ASSISTANT_ID = true
  · simp [POST, hk, ha] at h200
  rw [Bool.not_eq_true] at hk ha
  by_cases ht : jsTrim (jsOr body.transcript "") = ""
  · simp [POST, validate, hk, ha, ht] at h200
  rw [POST_pipeline env body ext hk ha ht] at h200 ⊢
  obtain ⟨notes, audio, mime, hbody, hnotes, haudio, hiff⟩ :=
    runPipeline_status200 _ _ _ ext h200
  refine ⟨notes, audio, mime, hbody, ?_, ?_, hiff⟩
  · intro hm
    refine hnotes ?_
    rw [hm]
    decide
  · intro hm
    refine haudio ?_
    rw [hm]
    decide

/-- Witness for C1: a notes-mode request that completes gives a 200 success
shape with both audio fields null. -/
theorem success_both_or_neither_witness :
    ∃ notes audio mime,
      (POST ⟨some "key", some "asst"⟩
          (some ⟨some "hi", some "notes", Option.none⟩) extDefault).1.body =
        RespBody.ok notes audio mime ∧
      ((⟨some "hi", some "notes", Option.none⟩ : RecapBody).mode = some "notes" →
        audio = Option.none ∧ mime = Option.none) ∧
      ((⟨some "hi", some "notes", Option.none⟩ : RecapBody).mode =
          some "notes+audio" →
        ∃ b64, audio = some b64 ∧ mime = some "audio/mpeg") ∧
      (audio.isSome ↔ mime.isSome) :=
  success_both_or_neither ⟨some "key", some "asst"⟩
    ⟨some "hi", some "notes", Option.none⟩ extDefault rfl

/-- C2 counterexample: the parser accepts three payloads the claim requires
it to reject — an object without the `notes_markdown` key, a message with two
content parts, and a payload that is a JSON array rather than an object
(`jpSample` agrees with the JavaScript runtime's `JSON.parse` on all three
payloads). -/
theorem parse_claim_counterexample :
    (parseSucceeds jpSample msgsEmptyObj = true ∧
      claimedParseOK jpSample msgsEmptyObj = false) ∧
    (parseSucceeds jpSample msgsTwoParts = true ∧
      claimedParseOK jpSample msgsTwoParts = false) ∧
    (parseSucceeds jpSample msgsArray = true ∧
      claimedParseOK jpSample msgsArray = false) :=
  ⟨⟨rfl, rfl⟩, ⟨rfl, rfl⟩, ⟨rfl, rfl⟩⟩

/-- C2 amended: the parse stage succeeds iff the retrieved messages contain
an assistant-role message (the first such) whose content is non-empty with a
textual first part and whose text decodes as JSON to a value other than JSON
null — `notes_markdown` is not required and the decoded value need not be an
object, both fields being read with empty-string defaults; every deviation
yields a 500 error response. -/
theorem parse_succeeds_iff (jsonParse : String → Option Json)
    (msgs : List Message) :
    parseSucceeds jsonParse msgs = codeParseOK jsonParse msgs ∧
    (parseSucceeds jsonParse msgs = false →
      ∃ r, parseAssistant jsonParse msgs = .error r ∧ r.status = 500) := by
  constructor
  · cases hfind : msgs.find? (fun m => m.role == "assistant") with
    | none => simp [parseSucceeds, parseAssistant, codeParseOK, hfind]
    | some amsg =>
      cases hcont : amsg.content with
      | nil => simp [parseSucceeds, parseAssistant, codeParseOK, hfind, hcont]
      | cons p rest =>
        cases p with
        | other =>
          simp [parseSucceeds, parseAssistant, codeParseOK, hfind, hcont]
        | text raw =>
          cases hj : jsonParse raw with
          | none =>
            simp [parseSucceeds, parseAssistant, codeParseOK, hfind, hcont, hj]
          | some j =>
            cases j <;>
              simp [parseSucceeds, parseAssistant, codeParseOK, hfind, hcont, hj]
  · intro hfail
    cases hp : parseAssistant jsonParse msgs with
    | ok v => simp [parseSucceeds, hp] at hfail
    | error r => exact ⟨r, rfl, parseAssistant_error_status _ _ _ hp⟩

/-- Witness for C2's amended statement: an empty message list makes the
parse stage fail with a 500 response. -/
theorem parse_succeeds_iff_witness :
    ∃ r, parseAssistant jpSample [] = .error r ∧ r.status = 500 :=
  (parse_succeeds_iff jpSample []).2 rfl

end Recap
